import Mathlib

/-!
Verification of the bikestat backend core: the in-memory session store
(`backend/services/session.py`) and the aggregation / export engine
(`backend/services/data_processor.py`, `backend/api/export.py`).

The Python code is shallowly embedded: datetimes become integer minutes,
floats become rationals, `None` becomes `Option`, the two session-store
dictionaries become functions from tokens to optional values, and a
session attribute bag (`dict[str, Any]`) becomes an insertion-ordered
association list over an arbitrary value type.
-/

namespace BikeStat

/-! ## Session store (src/backend/services/session.py) -/

/-- A session attribute bag: Python `dict[str, Any]` as an
insertion-ordered association list over an arbitrary value type. -/
abbrev Bag (Val : Type) : Type := List (String × Val)

/-- Python `d[k] = v` on a dict: overwrite in place when the key exists,
append otherwise (insertion order preserved as in CPython). -/
def dictSet {Val : Type} (d : Bag Val) (k : String) (v : Val) : Bag Val :=
  if d.any (fun p => p.1 = k) then
    d.map (fun p => if p.1 = k then (k, v) else p)
  else
    d ++ [(k, v)]

/-- Python `d.update(patch)`: patch keys overwrite, other keys are kept. -/
def dictUpdate {Val : Type} (d patch : Bag Val) : Bag Val :=
  patch.foldl (fun acc p => dictSet acc p.1 p.2) d

/-- The mutable state of `SessionManager`: the configured timeout
(minutes), the `sessions` dict (token to attribute bag) and the
`last_activity` dict (token to timestamp, in minutes). -/
structure SessionState (Val : Type) where
  timeoutMinutes : Int
  sessions : String → Option (Bag Val)
  lastActivity : String → Option Int

/-- Set one entry of a token-indexed map. -/
def setEntry {α : Type} (m : String → Option α) (k : String) (v : α) :
    String → Option α :=
  fun t => if t = k then some v else m t

/-- Remove one entry of a token-indexed map (Python `del m[k]`; the
source only deletes keys that are present). -/
def delEntry {α : Type} (m : String → Option α) (k : String) :
    String → Option α :=
  fun t => if t = k then none else m t

/-- Embedding of `SessionManager._is_expired`: expired when the token has no
last-activity stamp or `now - last_active > timedelta(minutes=timeout)`. -/
def isExpired {Val : Type} (s : SessionState Val) (tok : String) (now : Int) : Bool :=
  match s.lastActivity tok with
  | none => true
  | some lastActive => now - lastActive > s.timeoutMinutes

/-- Embedding of `SessionManager.create_session`: install an empty bag and stamp
`last_active = now`.  The random token is a parameter of the model. -/
def createSession {Val : Type} (s : SessionState Val) (tok : String) (now : Int) :
    String × SessionState Val :=
  (tok, { s with sessions := setEntry s.sessions tok [],
                 lastActivity := setEntry s.lastActivity tok now })

/-- Embedding of `SessionManager.delete_session`: remove the entry from both dicts
when present, report absence otherwise. -/
def deleteSession {Val : Type} (s : SessionState Val) (tok : String) :
    Bool × SessionState Val :=
  match s.sessions tok with
  | some _ =>
      (true, { s with sessions := delEntry s.sessions tok,
                      lastActivity := delEntry s.lastActivity tok })
  | none => (false, s)

/-- Embedding of `SessionManager.get_session`: absent tokens give `none`; expired
tokens are deleted first and give `none`; otherwise the last-activity
stamp is refreshed and the bag returned. -/
def getSession {Val : Type} (s : SessionState Val) (tok : String) (now : Int) :
    Option (Bag Val) × SessionState Val :=
  match s.sessions tok with
  | none => (none, s)
  | some bag =>
      if isExpired s tok now then
        (none, (deleteSession s tok).2)
      else
        (some bag, { s with lastActivity := setEntry s.lastActivity tok now })

/-- Embedding of `SessionManager.update_session`: tokens absent from `sessions` give
`False` and leave the state alone; otherwise the patch is merged into
the bag, `last_active` is refreshed and `True` returned. -/
def updateSession {Val : Type} (s : SessionState Val) (tok : String) (now : Int)
    (patch : Bag Val) : Bool × SessionState Val :=
  match s.sessions tok with
  | none => (false, s)
  | some bag =>
      (true, { s with sessions := setEntry s.sessions tok (dictUpdate bag patch),
                      lastActivity := setEntry s.lastActivity tok now })

/-- Whether one sweep of `_cleanup_expired_sessions` at time `now`
selects the token: it iterates `last_activity.items()` and collects the
ids with `now - last_active > timedelta(minutes=timeout)`. -/
def sweepSelects {Val : Type} (s : SessionState Val) (now : Int) (t : String) : Bool :=
  match s.lastActivity t with
  | none => false
  | some lastActive => now - lastActive > s.timeoutMinutes

/-- One sweep of the background reaper: `delete_session` applied to each
selected token.  Each deletion touches only its own token, so the
sequential loop is modelled as a simultaneous update; `delete_session`
removes an entry only when the token is in `sessions`. -/
def cleanupSweep {Val : Type} (s : SessionState Val) (now : Int) : SessionState Val :=
  { s with
    sessions := fun t =>
      if sweepSelects s now t ∧ (s.sessions t).isSome then none else s.sessions t,
    lastActivity := fun t =>
      if sweepSelects s now t ∧ (s.sessions t).isSome then none else s.lastActivity t }

/-- The store operations reachable from the HTTP layer plus the reaper
sweep, with their timestamps made explicit. -/
inductive SessionOp (Val : Type) where
  | create (tok : String) (now : Int)
  | get (tok : String) (now : Int)
  | update (tok : String) (now : Int) (patch : Bag Val)
  | delete (tok : String)
  | sweep (now : Int)

/-- State transition of one store operation (return values discarded). -/
def applyOp {Val : Type} (s : SessionState Val) : SessionOp Val → SessionState Val
  | .create tok now => (createSession s tok now).2
  | .get tok now => (getSession s tok now).2
  | .update tok now patch => (updateSession s tok now patch).2
  | .delete tok => (deleteSession s tok).2
  | .sweep now => cleanupSweep s now

/-- The store invariant: `sessions` and `last_activity` track exactly
the same token set. -/
def Inv {Val : Type} (s : SessionState Val) : Prop :=
  ∀ t, (s.sessions t).isSome ↔ (s.lastActivity t).isSome

/-! ## Activity model (src/backend/models/activity.py) -/

/-- Embedding of the `Activity` pydantic model: floats become rationals, datetimes
become integer timestamps and `Optional` fields become `Option`. -/
structure Activity where
  activity_id : String
  activity_name : String
  activity_type : String
  start_time : Int
  duration : ℚ
  distance : ℚ
  avg_speed : Option ℚ
  max_speed : Option ℚ
  avg_power : Option ℚ
  max_avg_power : Option ℚ
  max_power : Option ℚ
  avg_hr : Option ℚ
  max_hr : Option ℚ
  total_ascent : Option ℚ
  max_elevation : Option ℚ
  avg_cadence : Option ℚ
  max_cadence : Option ℚ
  calories : Option Int
deriving DecidableEq

/-- Embedding of the `ActivitySummary` pydantic model: every optional field defaults to
`None`, exactly as in the pydantic declaration. -/
structure ActivitySummary where
  total_activities : Nat
  total_duration : ℚ
  total_distance : ℚ
  avg_speed : Option ℚ := none
  max_speed : Option ℚ := none
  avg_power : Option ℚ := none
  max_avg_power : Option ℚ := none
  max_power : Option ℚ := none
  avg_hr : Option ℚ := none
  max_hr : Option ℚ := none
  total_ascent : Option ℚ := none
  max_elevation : Option ℚ := none
  avg_cadence : Option ℚ := none
  max_cadence : Option ℚ := none
  total_calories : Option Int := none
deriving DecidableEq

/-! ## DataProcessor.calculate_summary
(src/backend/services/data_processor.py) -/

/-- Embedding of `safe_mean`: drop the nulls of a column, mean of the remaining
values, `None` when none remain. -/
def safeMean (f : Activity → Option ℚ) (activities : List Activity) : Option ℚ :=
  let values := activities.filterMap f
  if values.isEmpty then none else some (values.sum / values.length)

/-- Embedding of `safe_max`: drop the nulls of a column, max of the remaining values,
`None` when none remain. -/
def safeMax (f : Activity → Option ℚ) (activities : List Activity) : Option ℚ :=
  match activities.filterMap f with
  | [] => none
  | v :: vs => some (vs.foldl max v)

/-- Embedding of `safe_sum`: drop the nulls of a column, sum of the remaining values,
`None` when none remain. -/
def safeSum (f : Activity → Option ℚ) (activities : List Activity) : Option ℚ :=
  let values := activities.filterMap f
  if values.isEmpty then none else some values.sum

/-- Embedding of `safe_sum("calories")` over the integer calorie column (pandas sums
the present integers exactly). -/
def safeSumCalories (activities : List Activity) : Option Int :=
  let values := activities.filterMap Activity.calories
  if values.isEmpty then none else some values.sum

/-- Python `x or 0` on an optional number: `None` and `0` both give `0`,
any other value gives itself. -/
def pyOrZero : Option Int → Int
  | none => 0
  | some s => if s = 0 then 0 else s

/-- Embedding of `DataProcessor.calculate_summary`: the empty list short-circuits to
the zero-count summary with pydantic defaults; otherwise totals are
plain sums and each optional aggregate is computed over the non-null
subset of its column.  `total_calories` is `int(safe_sum("calories") or 0)`. -/
def calculateSummary (activities : List Activity) : ActivitySummary :=
  if activities.isEmpty then
    { total_activities := 0
      total_duration := 0
      total_distance := 0 }
  else
    { total_activities := activities.length
      total_duration := (activities.map Activity.duration).sum
      total_distance := (activities.map Activity.distance).sum
      avg_speed := safeMean Activity.avg_speed activities
      max_speed := safeMax Activity.max_speed activities
      avg_power := safeMean Activity.avg_power activities
      max_avg_power := safeMax Activity.max_avg_power activities
      max_power := safeMax Activity.max_power activities
      avg_hr := safeMean Activity.avg_hr activities
      max_hr := safeMax Activity.max_hr activities
      total_ascent := safeSum Activity.total_ascent activities
      max_elevation := safeMax Activity.max_elevation activities
      avg_cadence := safeMean Activity.avg_cadence activities
      max_cadence := safeMax Activity.max_cadence activities
      total_calories := some (pyOrZero (safeSumCalories activities)) }

/-! ## DataProcessor.filter_activities -/

/-- Embedding of `DataProcessor.filter_activities`.  The type filter runs only when
`activity_types` is truthy in Python, i.e. supplied and non-empty; each
date bound, when supplied, keeps the records inside it (inclusive). -/
def filterActivities (activities : List Activity)
    (activity_types : Option (List String))
    (start_date : Option Int) (end_date : Option Int) : List Activity :=
  let filtered := activities
  let filtered :=
    match activity_types with
    | some types => if types.isEmpty then filtered
                    else filtered.filter (fun a => types.contains a.activity_type)
    | none => filtered
  let filtered :=
    match start_date with
    | some sd => filtered.filter (fun a => sd ≤ a.start_time)
    | none => filtered
  let filtered :=
    match end_date with
    | some ed => filtered.filter (fun a => a.start_time ≤ ed)
    | none => filtered
  filtered

/-! ## Export view (src/backend/api/export.py, export_csv)

The DataFrame built by `activities_to_dataframe` is modelled cell-wise:
a cell is missing (`NaN`), a number, or a string. -/

/-- One DataFrame cell. -/
inductive Value where
  | na : Value
  | num (q : ℚ) : Value
  | str (s : String) : Value
deriving DecidableEq

/-- A value of the synthesized totals row (Python mixes strings, ints
and rounded floats there). -/
inductive Cell where
  | str (s : String) : Cell
  | int (n : Int) : Cell
  | rat (q : ℚ) : Cell
deriving DecidableEq

/-- Test `pandas.notna` of one cell. -/
def notNa : Value → Bool
  | Value.na => false
  | _ => true

/-- One cell of `series.fillna(0) == 0`: missing cells become `0` and
compare equal, numeric cells compare by value, strings never equal `0`. -/
def fillnaZeroEqZero : Value → Bool
  | Value.na => true
  | Value.num q => q = 0
  | Value.str _ => false

/-- Python `round` to 0 digits: round half to even, as an integer. -/
def pyRound0 (x : ℚ) : Int :=
  let f : Int := ⌊x⌋
  let r : ℚ := x - f
  if r < 1 / 2 then f
  else if 1 / 2 < r then f + 1
  else if f % 2 = 0 then f else f + 1

/-- Python-style `round(x, 1)`: round half to even at one decimal. -/
def pyRound1 (x : ℚ) : ℚ := (pyRound0 (x * 10) : ℚ) / 10

/-- Python-style `round(x, 2)`: round half to even at two decimals. -/
def pyRound2 (x : ℚ) : ℚ := (pyRound0 (x * 100) : ℚ) / 100

/-- Python float floor division `x // y` followed by `int(...)`. -/
def pyFloorDiv (x y : ℚ) : Int := ⌊x / y⌋

/-- Python float modulo `x % y` (sign of the divisor). -/
def pyMod (x y : ℚ) : ℚ := x - y * (⌊x / y⌋ : ℚ)

/-- Python 02d zero-padding formatting for the non-negative values
produced here. -/
def pad2 (n : Int) : String :=
  if 0 ≤ n ∧ n < 10 then "0" ++ toString n else toString n

/-- The `duration_formatted` column of `activities_to_dataframe`: seconds as
`HH:MM:SS`. -/
def formatHMS (x : ℚ) : String :=
  pad2 (pyFloorDiv x 3600) ++ ":" ++ pad2 (pyFloorDiv (pyMod x 3600) 60)
    ++ ":" ++ pad2 ⌊pyMod x 60⌋

/-- The totals-row duration format of `export_csv`: seconds as `HH:MM`. -/
def formatHM (x : ℚ) : String :=
  pad2 (pyFloorDiv x 3600) ++ ":" ++ pad2 (pyFloorDiv (pyMod x 3600) 60)

/-- Lift an optional rational to a cell (`NaN` for `None`). -/
def optNumCell : Option ℚ → Value
  | none => Value.na
  | some q => Value.num q

/-- One DataFrame cell of `activities_to_dataframe` for a given
DataFrame column name: the raw model columns plus the derived
`duration_formatted`, `distance_km` and `*_kmh` columns.  `NaN`
propagates through the `* 3.6` conversions. -/
def dfCell (a : Activity) (c : String) : Value :=
  if c = "start_time" then Value.str (toString a.start_time)
  else if c = "activity_name" then Value.str a.activity_name
  else if c = "activity_type" then Value.str a.activity_type
  else if c = "duration_formatted" then Value.str (formatHMS a.duration)
  else if c = "distance_km" then Value.num (a.distance / 1000)
  else if c = "avg_speed_kmh" then optNumCell (a.avg_speed.map (fun q => q * (36 / 10)))
  else if c = "max_speed_kmh" then optNumCell (a.max_speed.map (fun q => q * (36 / 10)))
  else if c = "avg_power" then optNumCell a.avg_power
  else if c = "max_power" then optNumCell a.max_power
  else if c = "avg_hr" then optNumCell a.avg_hr
  else if c = "max_hr" then optNumCell a.max_hr
  else if c = "total_ascent" then optNumCell a.total_ascent
  else if c = "max_elevation" then optNumCell a.max_elevation
  else if c = "avg_cadence" then optNumCell a.avg_cadence
  else if c = "max_cadence" then optNumCell a.max_cadence
  else if c = "calories" then optNumCell (a.calories.map (fun n => (n : ℚ)))
  else Value.na

/-- One DataFrame column of the record list. -/
def columnCells (records : List Activity) (c : String) : List Value :=
  records.map (fun a => dfCell a c)

/-- The `column_mapping` table of `export_csv`: frontend key, DataFrame column
name and CSV label, in the fixed master order. -/
def columnMapping : List (String × String × String) :=
  [("start_time", "start_time", "Date"),
   ("activity_name", "activity_name", "Activity Name"),
   ("activity_type", "activity_type", "Type"),
   ("duration", "duration_formatted", "Duration"),
   ("distance", "distance_km", "Distance (km)"),
   ("avg_speed", "avg_speed_kmh", "Avg Speed (km/h)"),
   ("max_speed", "max_speed_kmh", "Max Speed (km/h)"),
   ("avg_power", "avg_power", "Avg Power (W)"),
   ("max_power", "max_power", "Max Power (W)"),
   ("avg_hr", "avg_hr", "Avg HR (bpm)"),
   ("max_hr", "max_hr", "Max HR (bpm)"),
   ("total_ascent", "total_ascent", "Elevation Gain (m)"),
   ("max_elevation", "max_elevation", "Max Elevation (m)"),
   ("avg_cadence", "avg_cadence", "Avg Cadence (rpm)"),
   ("max_cadence", "max_cadence", "Max Cadence (rpm)"),
   ("calories", "calories", "Calories")]

/-- Lookup of `column_mapping[key]` as an option. -/
def lookupKey (key : String) : Option (String × String) :=
  (columnMapping.find? (fun e => e.1 = key)).map (fun e => e.2)

/-- The key order the export loop walks: the master order restricted to
the selected keys when a non-empty selection was supplied (Python
truthiness: an empty selection behaves like no selection). -/
def orderedKeys (selected : Option (List String)) : List String :=
  match selected with
  | some keys =>
      if keys.isEmpty then columnMapping.map (fun e => e.1)
      else (columnMapping.map (fun e => e.1)).filter (fun k => keys.contains k)
  | none => columnMapping.map (fun e => e.1)

/-- The degenerate-column test of the export loop:
`df[col].notna().sum() == 0 or (df[col].fillna(0) == 0).all()`. -/
def degenerate (cells : List Value) : Bool :=
  cells.countP notNa = 0 || cells.all fillnaZeroEqZero

/-- Embedding of `export_columns_list`: walk the ordered keys, keep the
(DataFrame column, label) pairs whose column is not degenerate.  For a
non-empty record list every mapped column exists in the DataFrame, so
the `df_col not in df.columns` guard of the source never fires. -/
def exportColumnsList (records : List Activity) (selected : Option (List String)) :
    List (String × String) :=
  (orderedKeys selected).filterMap (fun key =>
    match lookupKey key with
    | none => none
    | some cl => if degenerate (columnCells records cl.1) then none else some cl)

/-- The numeric values of one column, nulls dropped (pandas `max`,
`mean`, `sum` skip `NaN`). -/
def presentNums (cells : List Value) : List ℚ :=
  cells.filterMap (fun v => match v with
    | Value.num q => some q
    | _ => none)

/-- Pandas `max` of a numeric column as an option. -/
def listMaxQ : List ℚ → Option ℚ
  | [] => none
  | v :: vs => some (vs.foldl max v)

/-- Whether the second character list is an initial segment of the
first. -/
def leadMatch : List Char → List Char → Bool
  | _, [] => true
  | [], _ :: _ => false
  | a :: as, b :: bs => a = b && leadMatch as bs

/-- Whether the second character list occurs contiguously inside the
first. -/
def hasSubList : List Char → List Char → Bool
  | [], pat => leadMatch [] pat
  | s@(_ :: t), pat => leadMatch s pat || hasSubList t pat

/-- Substring test (`sub in label` in Python), for the non-empty
patterns used by the totals loop. -/
def strContains (s pat : String) : Bool := hasSubList s.data pat.data

/-- The totals-row entry of one retained column that is not the first
retained column, following the branch order of the `export_csv` totals
loop exactly.  Python truthiness makes a zero aggregate fall to the
blank branch wherever the source tests `if value`. -/
def totalsEntryRest (records : List Activity) (cl : String × String) : Cell :=
  if cl.2 = "Activity Name" ∨ cl.2 = "Type" ∨ cl.2 = "Date" then Cell.str ""
  else if cl.2 = "Duration" then
    Cell.str (formatHM ((records.map Activity.duration).sum))
  else if cl.2 = "Distance (km)" then
    (match presentNums (columnCells records cl.1) with
     | [] => Cell.str ""
     | v :: vs => Cell.rat (pyRound2 ((v :: vs).sum)))
  else if strContains cl.2 "Max" = true then
    (match listMaxQ (presentNums (columnCells records cl.1)) with
     | none => Cell.str ""
     | some m =>
        if m ≠ 0 ∧ strContains cl.2 "Speed" = true then Cell.rat (pyRound1 m)
        else if m ≠ 0 then Cell.int (pyRound0 m)
        else Cell.str "")
  else if strContains cl.2 "Avg" = true then
    (match presentNums (columnCells records cl.1) with
     | [] => Cell.str ""
     | v :: vs =>
        let m : ℚ := (v :: vs).sum / (v :: vs).length
        if m ≠ 0 ∧ strContains cl.2 "Speed" = true then Cell.rat (pyRound1 m)
        else if m ≠ 0 then Cell.int (pyRound0 m)
        else Cell.str "")
  else if cl.2 = "Elevation Gain (m)" ∨ cl.2 = "Calories" then
    (match presentNums (columnCells records cl.1) with
     | [] => Cell.str ""
     | v :: vs =>
        let m : ℚ := (v :: vs).sum
        if m ≠ 0 then Cell.int (pyRound0 m) else Cell.str "")
  else Cell.str ""

/-- The synthesized totals row, labelled: the `first_column` flag of the
source puts the literal `TOTAL` into the first retained column, every
later column goes through the per-label rule table. -/
def totalsRow (records : List Activity) (cols : List (String × String)) :
    List (String × Cell) :=
  match cols with
  | [] => []
  | first :: rest =>
      (first.2, Cell.str "TOTAL") ::
        rest.map (fun cl => (cl.2, totalsEntryRest records cl))

/-! ## Concrete inputs used by witnesses and counterexamples -/

/-- A minimal activity: required fields set, every optional metric null. -/
def actBase : Activity :=
  { activity_id := "1", activity_name := "Ride", activity_type := "cycling",
    start_time := 100, duration := 1800, distance := 1000,
    avg_speed := none, max_speed := none, avg_power := none,
    max_avg_power := none, max_power := none, avg_hr := none, max_hr := none,
    total_ascent := none, max_elevation := none, avg_cadence := none,
    max_cadence := none, calories := none }

/-- An activity with a present average speed. -/
def actSpeedy : Activity := { actBase with avg_speed := some 4 }

/-- An activity with a present average power. -/
def actPower : Activity := { actBase with avg_power := some 100 }

/-- An activity with a negative max elevation. -/
def actElevNeg : Activity := { actBase with max_elevation := some (-5) }

/-- An activity with a zero max elevation. -/
def actElevZero : Activity := { actBase with max_elevation := some 0 }

/-- An activity with max elevation 7. -/
def actElevSeven : Activity := { actBase with max_elevation := some 7 }

/-- A store holding one session whose `last_active` stamp is `0`. -/
def staleStore : SessionState Nat :=
  { timeoutMinutes := 60,
    sessions := fun t => if t = "tok" then some [] else none,
    lastActivity := fun t => if t = "tok" then some 0 else none }

/-- The empty store with the default 60-minute timeout. -/
def emptyStore : SessionState Nat :=
  { timeoutMinutes := 60, sessions := fun _ => none, lastActivity := fun _ => none }

/-! ## Helper lemmas -/

theorem length_filterMap_eq_countP {α β : Type} (f : α → Option β) (l : List α) :
    (l.filterMap f).length = l.countP (fun a => (f a).isSome) := by
  induction l with
  | nil => rfl
  | cons a l ih =>
      cases hf : f a <;>
        simp [List.filterMap_cons, hf, List.countP_cons, ih]

/-- Embedding of `safe_mean` characterised by the count of records where the metric
is present: the mean divides by that count, and is `None` when it is
zero. -/
theorem safeMean_eq_countP (f : Activity → Option ℚ) (l : List Activity) :
    safeMean f l =
      if l.countP (fun a => (f a).isSome) = 0 then none
      else some ((l.filterMap f).sum / (l.countP (fun a => (f a).isSome) : ℚ)) := by
  unfold safeMean
  rw [← length_filterMap_eq_countP]
  cases hfm : l.filterMap f with
  | nil => simp
  | cons v vs => simp

/-- Evaluation: `formatHM` renders 1800 seconds as the display string `00:30`. -/
theorem formatHM_1800 : formatHM (1800 : ℚ) = "00:30" := by
  have h1 : pyFloorDiv (1800 : ℚ) 3600 = 0 := by
    unfold pyFloorDiv
    norm_num
  have h2 : pyMod (1800 : ℚ) 3600 = 1800 := by
    unfold pyMod
    norm_num
  have h3 : pyFloorDiv (1800 : ℚ) 60 = 30 := by
    unfold pyFloorDiv
    norm_num
  unfold formatHM
  rw [h1, h2, h3]
  rfl

theorem foldl_max_mem (v : ℚ) (vs : List ℚ) : vs.foldl max v ∈ v :: vs := by
  induction vs generalizing v with
  | nil => simp [List.foldl]
  | cons a t ih =>
      have h := ih (max v a)
      rcases List.mem_cons.mp h with h1 | h2
      · rcases max_choice v a with hv | ha
        · rw [List.foldl_cons, h1, hv]; exact List.mem_cons_self _ _
        · rw [List.foldl_cons, h1, ha]
          exact List.mem_cons_of_mem _ (List.mem_cons_self _ _)
      · exact List.mem_cons_of_mem _ (List.mem_cons_of_mem _ h2)

theorem le_foldl_max (v : ℚ) (vs : List ℚ) :
    ∀ x ∈ v :: vs, x ≤ vs.foldl max v := by
  induction vs generalizing v with
  | nil => intro x hx; rcases List.mem_cons.mp hx with h | h
           · rw [h]; exact le_refl _
           · exact absurd h (List.not_mem_nil x)
  | cons a t ih =>
      intro x hx
      rw [List.foldl_cons]
      rcases List.mem_cons.mp hx with h | h
      · calc x = v := h
          _ ≤ max v a := le_max_left v a
          _ ≤ t.foldl max (max v a) := ih (max v a) _ (List.mem_cons_self _ _)
      · rcases List.mem_cons.mp h with h2 | h2
        · calc x = a := h2
            _ ≤ max v a := le_max_right v a
            _ ≤ t.foldl max (max v a) := ih (max v a) _ (List.mem_cons_self _ _)
        · exact ih (max v a) x (List.mem_cons_of_mem _ h2)

/-- Pandas `max` returns the greatest element of the column. -/
theorem listMaxQ_eq_greatest (l : List ℚ) (m : ℚ) (hm : m ∈ l)
    (hub : ∀ v ∈ l, v ≤ m) : listMaxQ l = some m := by
  cases l with
  | nil => exact absurd hm (List.not_mem_nil m)
  | cons v vs =>
      rw [listMaxQ]
      congr 1
      exact le_antisymm (hub _ (foldl_max_mem v vs)) (le_foldl_max v vs m hm)

/-- A token whose last-activity stamp is the current instant is not
expired under a non-negative timeout. -/
theorem isExpired_after_refresh {Val : Type} (s : SessionState Val) (tok : String)
    (now : Int) (h : s.lastActivity tok = some now) (hto : 0 ≤ s.timeoutMinutes) :
    isExpired s tok now = false := by
  unfold isExpired
  rw [h]
  simp only [gt_iff_lt, decide_eq_false_iff_not, not_lt]
  omega

/-- Reading `get_session` on a present, unexpired token returns the bag. -/
theorem getSession_fst_of_fresh {Val : Type} (s : SessionState Val) (tok : String)
    (now : Int) (bag : Bag Val) (hs : s.sessions tok = some bag)
    (hne : isExpired s tok now = false) :
    (getSession s tok now).1 = some bag := by
  unfold getSession
  rw [hs, hne]
  simp

/-- The store invariant is preserved by every single operation. -/
theorem inv_applyOp {Val : Type} (s : SessionState Val) (h : Inv s)
    (op : SessionOp Val) : Inv (applyOp s op) := by
  cases op with
  | create tok now =>
      intro t
      by_cases ht : t = tok <;>
        simp [applyOp, createSession, setEntry, ht, h t]
  | get tok now =>
      intro t
      simp only [applyOp, getSession]
      cases hs : s.sessions tok with
      | none => exact h t
      | some bag =>
          cases he : isExpired s tok now with
          | true =>
              simp only [if_pos]
              simp only [deleteSession, hs]
              by_cases ht : t = tok <;> simp [delEntry, ht, h t]
          | false =>
              simp only [Bool.false_eq_true, if_neg, not_false_iff]
              by_cases ht : t = tok <;> simp [setEntry, ht, h t, hs]
  | update tok now patch =>
      intro t
      simp only [applyOp, updateSession]
      cases hs : s.sessions tok with
      | none => exact h t
      | some bag =>
          by_cases ht : t = tok <;> simp [setEntry, ht, h t, hs]
  | delete tok =>
      intro t
      simp only [applyOp, deleteSession]
      cases hs : s.sessions tok with
      | none => exact h t
      | some bag =>
          by_cases ht : t = tok <;> simp [delEntry, ht, h t]
  | sweep now =>
      intro t
      simp only [applyOp, cleanupSweep]
      by_cases hc : sweepSelects s now t = true ∧ (s.sessions t).isSome = true
      · rw [if_pos hc, if_pos hc]; exact Iff.rfl
      · rw [if_neg hc, if_neg hc]; exact h t

/-! ## Claim theorems -/

/-- C1, counterexample: in a store whose only session has
`last_active = 0`, timeout 60 and `now = 61`, the token is expired but
still present; `update_session` nonetheless returns `True`, merges the
patch, refreshes `last_active`, and the session is retrievable again —
the claimed false no-op does not happen. -/
theorem update_expired_counterexample :
    isExpired staleStore "tok" 61 = true ∧
    (updateSession staleStore "tok" 61 [("k", 1)]).1 = true ∧
    ((updateSession staleStore "tok" 61 [("k", 1)]).2).sessions "tok" =
      some [("k", 1)] ∧
    ((updateSession staleStore "tok" 61 [("k", 1)]).2).lastActivity "tok" =
      some 61 ∧
    (getSession (updateSession staleStore "tok" 61 [("k", 1)]).2 "tok" 61).1 =
      some [("k", 1)] := by
  refine ⟨by decide, by decide, by decide, by decide, by decide⟩

/-- C1, amended: `update_session` succeeds on every token still present
in the store, even one already expired: it merges the patch, refreshes
`last_active` to `now`, returns `True`, and (for a non-negative timeout)
the session is retrievable again by `get_session` at the same instant.
It is a false no-op only for tokens absent from the store. -/
theorem update_expired_amended {Val : Type} (s : SessionState Val) (tok : String)
    (now : Int) (patch : Bag Val) (bag : Bag Val)
    (hbag : s.sessions tok = some bag)
    (hexp : isExpired s tok now = true)
    (hto : 0 ≤ s.timeoutMinutes) :
    (updateSession s tok now patch).1 = true ∧
    ((updateSession s tok now patch).2).sessions tok = some (dictUpdate bag patch) ∧
    ((updateSession s tok now patch).2).lastActivity tok = some now ∧
    (getSession ((updateSession s tok now patch).2) tok now).1 =
      some (dictUpdate bag patch) := by
  have hupd : updateSession s tok now patch =
      (true, { s with sessions := setEntry s.sessions tok (dictUpdate bag patch),
                      lastActivity := setEntry s.lastActivity tok now }) := by
    unfold updateSession; rw [hbag]
  refine ⟨by rw [hupd], ?_, ?_, ?_⟩
  · rw [hupd]; simp [setEntry]
  · rw [hupd]; simp [setEntry]
  · rw [hupd]
    refine getSession_fst_of_fresh _ tok now _ (by simp [setEntry]) ?_
    exact isExpired_after_refresh _ tok now (by simp [setEntry]) hto

/-- C1, witness for the amended theorem at the concrete stale store. -/
theorem update_expired_amended_witness :
    (updateSession staleStore "tok" 61 [("k", 1)]).1 = true ∧
    ((updateSession staleStore "tok" 61 [("k", 1)]).2).sessions "tok" =
      some (dictUpdate [] [("k", 1)]) ∧
    ((updateSession staleStore "tok" 61 [("k", 1)]).2).lastActivity "tok" =
      some 61 ∧
    (getSession ((updateSession staleStore "tok" 61 [("k", 1)]).2) "tok" 61).1 =
      some (dictUpdate [] [("k", 1)]) :=
  update_expired_amended staleStore "tok" 61 [("k", 1)] [] (by decide) (by decide)
    (by decide)

/-- C2, counterexample: for the empty record list the summary's
`total_calories` is `None` (the pydantic default), not `0`, so the
claim's "equals 0 when no record has a present calorie value" fails on
the empty list it explicitly includes. -/
theorem totalCalories_nil_counterexample :
    (calculateSummary []).total_calories = none ∧
    (none : Option Int) ≠ some 0 := by
  exact ⟨rfl, by decide⟩

/-- C2, amended: for every non-empty record list, `total_calories` is
the sum of the present calorie values — in particular `0` (not null)
when no record has a present calorie value, the empty sum being `0`;
for the empty list it is null. -/
theorem totalCalories_amended (l : List Activity) (hne : l ≠ []) :
    (calculateSummary l).total_calories =
      some ((l.filterMap Activity.calories).sum) := by
  have hE : ¬(l.isEmpty = true) := by
    simpa [List.isEmpty_iff] using hne
  have key : ∀ vs : List Int,
      pyOrZero (if vs.isEmpty = true then none else some vs.sum) = vs.sum := by
    intro vs
    cases vs with
    | nil => rfl
    | cons v t =>
        simp only [List.isEmpty_cons, Bool.false_eq_true, if_false, pyOrZero]
        by_cases hs : (v :: t).sum = 0
        · rw [if_pos hs, hs]
        · rw [if_neg hs]
  unfold calculateSummary
  rw [if_neg hE]
  simp only
  congr 1
  exact key (l.filterMap Activity.calories)

/-- C2, witness for the amended theorem: a single record with no present
calorie value sums to `0`. -/
theorem totalCalories_amended_witness :
    (calculateSummary [actBase]).total_calories =
      some (([actBase].filterMap Activity.calories).sum) :=
  totalCalories_amended [actBase] (by simp)

/-- C7: `calculate_summary []` gives count `0`, total duration `0`,
total distance `0`, and every optional aggregate — `total_calories`
included — equal to null. -/
theorem summary_nil_all_null :
    (calculateSummary []).total_activities = 0 ∧
    (calculateSummary []).total_duration = 0 ∧
    (calculateSummary []).total_distance = 0 ∧
    (calculateSummary []).avg_speed = none ∧
    (calculateSummary []).max_speed = none ∧
    (calculateSummary []).avg_power = none ∧
    (calculateSummary []).max_avg_power = none ∧
    (calculateSummary []).max_power = none ∧
    (calculateSummary []).avg_hr = none ∧
    (calculateSummary []).max_hr = none ∧
    (calculateSummary []).total_ascent = none ∧
    (calculateSummary []).max_elevation = none ∧
    (calculateSummary []).avg_cadence = none ∧
    (calculateSummary []).max_cadence = none ∧
    (calculateSummary []).total_calories = none :=
  ⟨rfl, rfl, rfl, rfl, rfl, rfl, rfl, rfl, rfl, rfl, rfl, rfl, rfl, rfl, rfl⟩

/-- C8, counterexample: a supplied empty type set is falsy in Python, so
`filter_activities` returns the whole input, not the empty list the
claim derives from set membership. -/
theorem filter_empty_types_counterexample :
    filterActivities [actBase] (some []) none none = [actBase] ∧
    ([actBase] : List Activity) ≠ [] :=
  ⟨rfl, by simp⟩

/-- C8, amended: when a non-empty type set is supplied, exactly the
records whose type belongs to the set are kept, in order; a supplied
empty type set is treated like an omitted one and returns the input
unchanged. -/
theorem filter_types_amended (l : List Activity) (types : List String) :
    (types ≠ [] →
       filterActivities l (some types) none none =
         l.filter (fun a => types.contains a.activity_type)) ∧
    (types ≠ [] → ∀ a, a ∈ filterActivities l (some types) none none ↔
       (a ∈ l ∧ a.activity_type ∈ types)) ∧
    filterActivities l (some []) none none = l := by
  have h1 : types ≠ [] →
      filterActivities l (some types) none none =
        l.filter (fun a => types.contains a.activity_type) := by
    intro ht
    have hE : ¬(types.isEmpty = true) := by
      simpa [List.isEmpty_iff] using ht
    show (if types.isEmpty = true then l
          else l.filter (fun a => types.contains a.activity_type)) =
        l.filter (fun a => types.contains a.activity_type)
    rw [if_neg hE]
  refine ⟨h1, ?_, rfl⟩
  intro ht a
  rw [h1 ht]
  simp [List.mem_filter]

/-- C8, witness for the amended theorem at a one-record list and a
non-matching singleton type set. -/
theorem filter_types_amended_witness :
    filterActivities [actBase] (some ["running"]) none none =
      [actBase].filter (fun a => ["running"].contains a.activity_type) :=
  (filter_types_amended [actBase] ["running"]).1 (by simp)

/-- C9: `filter_activities` with no type set and no date bounds returns
the input list itself, unchanged in order and identity. -/
theorem filter_no_predicates_identity (l : List Activity) :
    filterActivities l none none none = l := rfl

/-- C10: from any store satisfying it, the invariant "`sessions` and
`last_activity` track exactly the same token set" is preserved by every
sequence of create / get / update / delete / reaper-sweep operations. -/
theorem store_key_sets_agree {Val : Type} (s : SessionState Val) (h : Inv s)
    (ops : List (SessionOp Val)) : Inv (ops.foldl applyOp s) := by
  induction ops generalizing s with
  | nil => exact h
  | cons op ops ih => exact ih _ (inv_applyOp s h op)

/-- C10, witness: the invariant after a concrete operation sequence on
the empty store. -/
theorem store_key_sets_agree_witness :
    Inv (([SessionOp.create "a" 0, SessionOp.update "a" 5 [("k", (1 : Nat))],
           SessionOp.get "a" 70, SessionOp.sweep 200,
           SessionOp.delete "a"]).foldl applyOp emptyStore) :=
  store_key_sets_agree emptyStore (fun _ => Iff.rfl)
    [SessionOp.create "a" 0, SessionOp.update "a" 5 [("k", (1 : Nat))],
     SessionOp.get "a" 70, SessionOp.sweep 200, SessionOp.delete "a"]

/-- C3: for every non-empty record list, each average-style aggregate of
`calculate_summary` is the arithmetic mean over exactly the records
where the metric is present — dividing by that count `k`, not by the
list length — and is null when `k = 0`. -/
theorem summary_avg_over_present (l : List Activity) (hne : l ≠ []) :
    ((calculateSummary l).avg_speed =
       if l.countP (fun a => (a.avg_speed).isSome) = 0 then none
       else some ((l.filterMap Activity.avg_speed).sum /
                  (l.countP (fun a => (a.avg_speed).isSome) : ℚ))) ∧
    ((calculateSummary l).avg_power =
       if l.countP (fun a => (a.avg_power).isSome) = 0 then none
       else some ((l.filterMap Activity.avg_power).sum /
                  (l.countP (fun a => (a.avg_power).isSome) : ℚ))) ∧
    ((calculateSummary l).avg_hr =
       if l.countP (fun a => (a.avg_hr).isSome) = 0 then none
       else some ((l.filterMap Activity.avg_hr).sum /
                  (l.countP (fun a => (a.avg_hr).isSome) : ℚ))) ∧
    ((calculateSummary l).avg_cadence =
       if l.countP (fun a => (a.avg_cadence).isSome) = 0 then none
       else some ((l.filterMap Activity.avg_cadence).sum /
                  (l.countP (fun a => (a.avg_cadence).isSome) : ℚ))) := by
  have hE : ¬(l.isEmpty = true) := by
    simpa [List.isEmpty_iff] using hne
  unfold calculateSummary
  rw [if_neg hE]
  exact ⟨safeMean_eq_countP Activity.avg_speed l,
         safeMean_eq_countP Activity.avg_power l,
         safeMean_eq_countP Activity.avg_hr l,
         safeMean_eq_countP Activity.avg_cadence l⟩

/-- C3, witness: two records, average speed present in one of them. -/
theorem summary_avg_over_present_witness :
    (calculateSummary [actSpeedy, actBase]).avg_speed =
      (if ([actSpeedy, actBase].countP (fun a => (a.avg_speed).isSome)) = 0 then none
       else some (([actSpeedy, actBase].filterMap Activity.avg_speed).sum /
                  (([actSpeedy, actBase].countP
                      (fun a => (a.avg_speed).isSome)) : ℚ))) :=
  (summary_avg_over_present [actSpeedy, actBase] (by simp)).1

/-- C4: a column whose DataFrame cells are all missing, or all zero,
over a non-empty record list is never part of the export column list,
whatever column selection was requested. -/
theorem degenerate_column_excluded (records : List Activity) (hne : records ≠ [])
    (df_col label : String) (selected : Option (List String))
    (hdeg : (∀ a ∈ records, dfCell a df_col = Value.na) ∨
            (∀ a ∈ records, dfCell a df_col = Value.num 0)) :
    (df_col, label) ∉ exportColumnsList records selected := by
  intro hmem
  unfold exportColumnsList at hmem
  rw [List.mem_filterMap] at hmem
  obtain ⟨key, hkey, hsome⟩ := hmem
  cases hlk : lookupKey key with
  | none => rw [hlk] at hsome; exact Option.noConfusion hsome
  | some cl =>
      rw [hlk] at hsome
      have hsome2 : (if degenerate (columnCells records cl.1) = true then none
                     else some cl) = some (df_col, label) := hsome
      by_cases hd : degenerate (columnCells records cl.1) = true
      · rw [if_pos hd] at hsome2; exact Option.noConfusion hsome2
      · rw [if_neg hd] at hsome2
        injection hsome2 with hcl
        apply hd
        have h1 : cl.1 = df_col := by rw [hcl]
        rw [h1]
        cases hdeg with
        | inl hna =>
            have hz : (columnCells records df_col).countP notNa = 0 := by
              rw [List.countP_eq_zero]
              intro v hv
              obtain ⟨a, ha, rfl⟩ := List.mem_map.mp hv
              rw [hna a ha]
              exact Bool.false_ne_true
            simp [degenerate, hz]
        | inr hzero =>
            have hall : (columnCells records df_col).all fillnaZeroEqZero = true := by
              rw [List.all_eq_true]
              intro v hv
              obtain ⟨a, ha, rfl⟩ := List.mem_map.mp hv
              rw [hzero a ha]
              simp [fillnaZeroEqZero]
            simp [degenerate, hall]

/-- C4, witness: the all-null average-power column of a one-record list
is excluded even when explicitly requested. -/
theorem degenerate_column_excluded_witness :
    ("avg_power", "Avg Power (W)") ∉
      exportColumnsList [actBase] (some ["avg_power"]) :=
  degenerate_column_excluded [actBase] (by simp) "avg_power" "Avg Power (W)"
    (some ["avg_power"]) (Or.inl (by decide))

/-- C5, counterexample: requesting only the duration and average-power
columns makes Duration the first retained column, and its totals-row
entry is the literal `TOTAL`, not the claimed HH:MM sum of durations. -/
theorem totals_duration_counterexample :
    exportColumnsList [actPower] (some ["duration", "avg_power"]) =
      [("duration_formatted", "Duration"), ("avg_power", "Avg Power (W)")] ∧
    totalsRow [actPower]
        [("duration_formatted", "Duration"), ("avg_power", "Avg Power (W)")] =
      ("Duration", Cell.str "TOTAL") ::
        [("Avg Power (W)", totalsEntryRest [actPower] ("avg_power", "Avg Power (W)"))] ∧
    Cell.str "TOTAL" ≠
      Cell.str (formatHM (([actPower].map Activity.duration).sum)) := by
  have hsum : ([actPower].map Activity.duration).sum = 1800 := by
    simp [actPower, actBase]
  refine ⟨by decide, rfl, ?_⟩
  rw [hsum, formatHM_1800]
  decide

/-- C5, amended: the literal `TOTAL` goes into the first retained column
whatever its role; every later retained column follows the per-label
rule table, so a Duration column that is not first receives the sum of
all durations formatted HH:MM, and later textual/date columns (Activity
Name, Type, Date) receive a blank. -/
theorem totals_row_structure (records : List Activity)
    (selected : Option (List String)) (first : String × String)
    (rest : List (String × String))
    (hcols : exportColumnsList records selected = first :: rest) :
    totalsRow records (first :: rest) =
      (first.2, Cell.str "TOTAL") ::
        rest.map (fun cl => (cl.2, totalsEntryRest records cl)) ∧
    (∀ c, (c, "Duration") ∈ rest →
       totalsEntryRest records (c, "Duration") =
         Cell.str (formatHM ((records.map Activity.duration).sum))) ∧
    (∀ c lab, (c, lab) ∈ rest →
       lab = "Activity Name" ∨ lab = "Type" ∨ lab = "Date" →
       totalsEntryRest records (c, lab) = Cell.str "") := by
  refine ⟨rfl, ?_, ?_⟩
  · intro c hc
    show (if ("Duration" = "Activity Name" ∨ "Duration" = "Type" ∨
              "Duration" = "Date") then Cell.str ""
          else if "Duration" = "Duration" then
            Cell.str (formatHM ((records.map Activity.duration).sum))
          else _) = _
    rw [if_neg (by decide), if_pos rfl]
  · intro c lab hc hlab
    show (if (lab = "Activity Name" ∨ lab = "Type" ∨ lab = "Date")
          then Cell.str "" else _) = Cell.str ""
    rw [if_pos hlab]

/-- C5, witness for the amended theorem: an export view whose first
retained column is the Date column, with Duration retained later. -/
theorem totals_row_structure_witness :
    totalsRow [actPower]
        (("start_time", "Date") ::
          [("duration_formatted", "Duration"), ("avg_power", "Avg Power (W)")]) =
      (("Date", Cell.str "TOTAL") ::
        ([("duration_formatted", "Duration"), ("avg_power", "Avg Power (W)")].map
            (fun cl => (cl.2, totalsEntryRest [actPower] cl)))) :=
  (totals_row_structure [actPower] (some ["start_time", "duration", "avg_power"])
    ("start_time", "Date")
    [("duration_formatted", "Duration"), ("avg_power", "Avg Power (W)")]
    (by decide)).1

/-- C6, counterexample: a retained max-elevation column with present
values `-5` and `0` has maximum `0`; Python truthiness sends the totals
entry to the blank branch, where the claim demands the rounded maximum
`0`. -/
theorem totals_max_zero_counterexample :
    ("max_elevation", "Max Elevation (m)") ∈
      exportColumnsList [actElevNeg, actElevZero]
        (some ["duration", "max_elevation"]) ∧
    listMaxQ (presentNums
        (columnCells [actElevNeg, actElevZero] "max_elevation")) = some 0 ∧
    totalsEntryRest [actElevNeg, actElevZero]
        ("max_elevation", "Max Elevation (m)") = Cell.str "" ∧
    Cell.str "" ≠ Cell.int (pyRound0 0) := by
  refine ⟨by decide, by decide, by decide, by decide⟩

/-- C6, amended: for a non-first retained column whose label contains
`Max` (and is none of the earlier special labels), the totals entry is
the greatest present value rounded to one decimal for speed columns and
to the nearest integer (half to even) otherwise, except that it is
blank both when no present values exist and when the maximum equals
zero. -/
theorem totals_max_rule (records : List Activity) (df_col label : String)
    (hmax : strContains label "Max" = true)
    (htext : ¬(label = "Activity Name" ∨ label = "Type" ∨ label = "Date"))
    (hdur : label ≠ "Duration") (hdist : label ≠ "Distance (km)") :
    (presentNums (columnCells records df_col) = [] →
       totalsEntryRest records (df_col, label) = Cell.str "") ∧
    (∀ m, m ∈ presentNums (columnCells records df_col) →
       (∀ v ∈ presentNums (columnCells records df_col), v ≤ m) →
       totalsEntryRest records (df_col, label) =
         if m ≠ 0 ∧ strContains label "Speed" = true then Cell.rat (pyRound1 m)
         else if m ≠ 0 then Cell.int (pyRound0 m)
         else Cell.str "") := by
  constructor
  · intro hvs
    show (if (label = "Activity Name" ∨ label = "Type" ∨ label = "Date")
          then Cell.str ""
          else if label = "Duration" then _
          else if label = "Distance (km)" then _
          else if strContains label "Max" = true then
            (match listMaxQ (presentNums (columnCells records df_col)) with
             | none => Cell.str ""
             | some m =>
                if m ≠ 0 ∧ strContains label "Speed" = true then
                  Cell.rat (pyRound1 m)
                else if m ≠ 0 then Cell.int (pyRound0 m)
                else Cell.str "")
          else _) = Cell.str ""
    rw [if_neg htext, if_neg hdur, if_neg hdist, if_pos hmax, hvs]
    rfl
  · intro m hm hub
    have hlm : listMaxQ (presentNums (columnCells records df_col)) = some m :=
      listMaxQ_eq_greatest _ m hm hub
    show (if (label = "Activity Name" ∨ label = "Type" ∨ label = "Date")
          then Cell.str ""
          else if label = "Duration" then _
          else if label = "Distance (km)" then _
          else if strContains label "Max" = true then
            (match listMaxQ (presentNums (columnCells records df_col)) with
             | none => Cell.str ""
             | some m =>
                if m ≠ 0 ∧ strContains label "Speed" = true then
                  Cell.rat (pyRound1 m)
                else if m ≠ 0 then Cell.int (pyRound0 m)
                else Cell.str "")
          else _) = _
    rw [if_neg htext, if_neg hdur, if_neg hdist, if_pos hmax, hlm]

/-- C6, witness for the amended theorem: a one-record list with a
present max elevation of `7`, whose totals entry rounds to the integer
`7`. -/
theorem totals_max_rule_witness :
    totalsEntryRest [actElevSeven] ("max_elevation", "Max Elevation (m)") =
      Cell.int (pyRound0 7) := by
  rw [(totals_max_rule [actElevSeven] "max_elevation" "Max Elevation (m)"
        (by decide) (by decide) (by decide) (by decide)).2 7 (by decide) (by decide)]
  rw [if_neg (by decide), if_pos (by decide)]

end BikeStat
